import Mathlib

/-!
Shallow embedding of the call-lifecycle coordination logic of the
mentalhealthFrontend repository: the consultation screen's call
initialization with its bounded join-retry loop, the media-mode policy
applied before joining, the incoming-call listeners (Notification Channel
polling and native ringing), invitation accept/reject consumption, the
app-state camera policy, the hangup handler, and the call-duration badge.
Each definition is translated from the corresponding TypeScript source.
-/

namespace MentalHealth

/-- Call mode, `"audio" | "video"` in the source. -/
inductive CallMode
  | audio
  | video
deriving DecidableEq, Repr

/-- The media SDK's `CallingState` lifecycle values used by the app. -/
inductive CallingState
  | unknown
  | idle
  | joining
  | joined
  | ringing
  | left
deriving DecidableEq, Repr

/-- Current camera/microphone enablement of the device. -/
structure MediaFlags where
  cameraEnabled : Bool
  microphoneEnabled : Bool
deriving DecidableEq, Repr

/-- One camera/microphone command issued against the media SDK
(`call.camera.enable()` etc.). -/
inductive MediaOp
  | cameraEnable
  | cameraDisable
  | micEnable
  | micDisable
deriving DecidableEq, Repr

/-- Effect of one media command on the device flags. -/
def applyMediaOp (f : MediaFlags) : MediaOp → MediaFlags
  | .cameraEnable => { f with cameraEnabled := true }
  | .cameraDisable => { f with cameraEnabled := false }
  | .micEnable => { f with microphoneEnabled := true }
  | .micDisable => { f with microphoneEnabled := false }

/-- Effect of a command sequence, applied left to right. -/
def applyMediaOps (f : MediaFlags) (ops : List MediaOp) : MediaFlags :=
  ops.foldl applyMediaOp f

/-- Media commands issued before joining, per mode
(`initializeCall` in the consultation screen and `initiateCall` in the
home screen issue the same sequence):
audio → `camera.disable(); microphone.enable()`,
video → `camera.enable(); microphone.enable()`. -/
def configureMediaOps : CallMode → List MediaOp
  | .audio => [.cameraDisable, .micEnable]
  | .video => [.cameraEnable, .micEnable]

/-- Outcome of the consultation screen's call initialization: either the
call is joined (screen becomes active) or an error is surfaced. -/
inductive InitOutcome
  | active
  | failed
deriving DecidableEq, Repr

/-- Events emitted by `initializeCall`, in program order: the media
configuration performed before any join attempt, each `call.get()`
existence probe, the successful join, or the surfaced failure. -/
inductive InitEvent
  | mediaConfigured (flags : MediaFlags)
  | getAttempt (k : Nat) (ok : Bool)
  | joined
  | initFailed
deriving DecidableEq, Repr

/-- `maxAttempts = 20` in `initializeCall`'s retry loop
("2 seconds total with 100ms intervals"). -/
def maxAttempts : Nat := 20

/-- The retry loop of `initializeCall`
(`while (attempts < maxAttempts && mountedRef.current && !callFound)`):
each iteration probes `call.get()`; on success it calls `call.join()` and
stops; any throw (from `get` or `join`) increments `attempts` and retries
after a 100ms sleep. `getOk k` is whether the k-th `get()` call of the
whole initialization succeeds, `joinOk` whether `join()` succeeds;
`fuel` is the number of loop iterations remaining. -/
def retryLoopTrace (getOk : Nat → Bool) (joinOk : Bool) :
    Nat → Nat → List InitEvent
  | _, 0 => [.initFailed]
  | k, fuel + 1 =>
    if getOk k then
      if joinOk then [.getAttempt k true, .joined]
      else .getAttempt k true :: retryLoopTrace getOk joinOk (k + 1) fuel
    else .getAttempt k false :: retryLoopTrace getOk joinOk (k + 1) fuel

/-- Event trace of `initializeCall` on the consultation screen for a call
whose route parameters are valid: it configures camera/microphone per
`initialCallMode` starting from the device flags `init`, then tries
`call.get()` once; on success it joins directly, on failure it enters the
bounded retry loop. A `join()` throw on the direct path propagates to the
outer catch and surfaces an error. -/
def initializeCallTrace (mode : CallMode) (init : MediaFlags)
    (getOk : Nat → Bool) (joinOk : Bool) : List InitEvent :=
  .mediaConfigured (applyMediaOps init (configureMediaOps mode)) ::
    (if getOk 0 then
      if joinOk then [.getAttempt 0 true, .joined]
      else [.getAttempt 0 true, .initFailed]
    else .getAttempt 0 false :: retryLoopTrace getOk joinOk 1 maxAttempts)

/-- Final outcome of `initializeCall`: the screen reaches the active
(joined) state exactly when a `join()` completed; otherwise the error
state is shown. -/
def initializeCallOutcome (mode : CallMode) (init : MediaFlags)
    (getOk : Nat → Bool) (joinOk : Bool) : InitOutcome :=
  if .joined ∈ initializeCallTrace mode init getOk joinOk then .active
  else .failed

/-- If all get-probes from index `k` up to exhaustion of the fuel fail,
the retry loop ends in the surfaced failure, never a join. -/
theorem joined_not_mem_retryLoopTrace (getOk : Nat → Bool) (joinOk : Bool) :
    ∀ fuel k, (∀ j, k ≤ j → j < k + fuel → getOk j = false) →
      InitEvent.joined ∉ retryLoopTrace getOk joinOk k fuel := by
  intro fuel
  induction fuel with
  | zero =>
    intro k _
    simp [retryLoopTrace]
  | succ fuel ih =>
    intro k hfail
    have hk : getOk k = false := hfail k le_rfl (by omega)
    simp only [retryLoopTrace, hk, if_false, Bool.false_eq_true,
      List.mem_cons]
    rintro (h | h)
    · exact InitEvent.noConfusion h
    · exact ih (k + 1) (fun j hj hj' => hfail j (by omega) (by omega)) h

/-- If the probes fail strictly before index `N`, the probe at `N`
succeeds, and `N` is reached within the fuel, the retry loop joins
(assuming `join()` succeeds). -/
theorem joined_mem_retryLoopTrace (getOk : Nat → Bool) (N : Nat) :
    ∀ fuel k, k ≤ N → N < k + fuel →
      (∀ j, k ≤ j → j < N → getOk j = false) → getOk N = true →
      InitEvent.joined ∈ retryLoopTrace getOk true k fuel := by
  intro fuel
  induction fuel with
  | zero =>
    intro k hk hlt
    omega
  | succ fuel ih =>
    intro k hk hlt hfail hN
    by_cases hgk : getOk k = true
    · simp [retryLoopTrace, hgk]
    · have hkN : k ≠ N := fun h => hgk (h ▸ hN)
      have hk1 : k + 1 ≤ N := by omega
      simp only [retryLoopTrace, hgk, if_false, Bool.false_eq_true,
        List.mem_cons]
      exact Or.inr (ih (k + 1) hk1 (by omega)
        (fun j hj hj' => hfail j (by omega) hj') hN)

/-- C1: Join retry is bounded with a fixed short backoff: if `get()`
fails N times and then succeeds (N strictly below the 20-attempt bound)
and the subsequent `join()` succeeds, the screen reaches the active
(joined) state; if `get()` fails on every attempt up to the bound, the
screen reaches the failed state regardless of `join()`. -/
theorem join_retry_bounded (mode : CallMode) (init : MediaFlags)
    (getOk getFail : Nat → Bool) (N : Nat) (joinOk : Bool)
    (hN : N < maxAttempts)
    (hfail : ∀ k, k < N → getOk k = false)
    (hsucc : getOk N = true)
    (hall : ∀ k, k ≤ maxAttempts → getFail k = false) :
    initializeCallOutcome mode init getOk true = .active ∧
      initializeCallOutcome mode init getFail joinOk = .failed := by
  constructor
  · have hmem : InitEvent.joined ∈ initializeCallTrace mode init getOk true := by
      by_cases h0 : getOk 0 = true
      · simp [initializeCallTrace, h0]
      · have hN0 : N ≠ 0 := fun h => h0 (h ▸ hsucc)
        have : InitEvent.joined ∈ retryLoopTrace getOk true 1 maxAttempts :=
          joined_mem_retryLoopTrace getOk N maxAttempts 1 (by omega) (by omega)
            (fun j _ hj' => hfail j hj') hsucc
        simp [initializeCallTrace, h0, this]
    simp [initializeCallOutcome, hmem]
  · have h0 : getFail 0 = false := hall 0 (by omega)
    have hnm : InitEvent.joined ∉ retryLoopTrace getFail joinOk 1 maxAttempts :=
      joined_not_mem_retryLoopTrace getFail joinOk maxAttempts 1
        (fun j _ hj' => hall j (by omega))
    have : InitEvent.joined ∉ initializeCallTrace mode init getFail joinOk := by
      simp only [initializeCallTrace, h0, if_false, Bool.false_eq_true,
        List.mem_cons]
      rintro (h | h | h)
      · exact InitEvent.noConfusion h
      · exact InitEvent.noConfusion h
      · exact hnm h
    simp [initializeCallOutcome, this]

/-- Witness for C1 at a concrete input: `get()` fails twice then
succeeds (reaching active), against a `get()` that always fails
(reaching failed). -/
theorem join_retry_bounded_witness :
    initializeCallOutcome .video ⟨false, false⟩
        (fun k => decide (2 ≤ k)) true = .active ∧
      initializeCallOutcome .video ⟨false, false⟩
        (fun _ => false) true = .failed :=
  join_retry_bounded .video ⟨false, false⟩ (fun k => decide (2 ≤ k))
    (fun _ => false) 2 true (by decide) (by decide) (by decide)
    (fun _ _ => rfl)

/-- C2: For every mode and every prior device state, initialization
configures the media flags — camera enabled iff the mode is video,
microphone enabled unconditionally — as the very first step of the
trace, before any get/join event, hence before the call can be declared
active. -/
theorem initiate_media_policy (mode : CallMode) (init : MediaFlags)
    (getOk : Nat → Bool) (joinOk : Bool) :
    ∃ rest,
      initializeCallTrace mode init getOk joinOk =
        .mediaConfigured (applyMediaOps init (configureMediaOps mode)) :: rest ∧
      (applyMediaOps init (configureMediaOps mode)).cameraEnabled =
        decide (mode = .video) ∧
      (applyMediaOps init (configureMediaOps mode)).microphoneEnabled = true := by
  refine ⟨_, rfl, ?_, ?_⟩ <;>
    cases mode <;>
      simp [applyMediaOps, applyMediaOp, configureMediaOps]

/-- A pending-call record served by the Notification Channel
(`IncomingCallNotification` in `CallNotificationListener.tsx`): `id` is
the notification record's own id, `callId` the media-service call id. -/
structure CallNotification where
  id : String
  callId : String
  callMode : CallMode
  callerName : String
  callRate : Nat
deriving DecidableEq, Repr

/-- Mutable state of `CallNotificationListener`: `lastChecked` mirrors
`lastCheckedRef`, `incoming` mirrors `incomingNotification`,
`currentCallCaptured` whether `call.get()` succeeded when the
notification was surfaced (`currentCall !== null`). -/
structure ListenerState where
  lastChecked : Option String
  incoming : Option CallNotification
  currentCallCaptured : Bool
  vibrating : Bool
deriving DecidableEq, Repr

/-- Listener state when the component mounts. -/
def initialListenerState : ListenerState :=
  { lastChecked := none, incoming := none, currentCallCaptured := false,
    vibrating := false }

/-- One execution of `pollForNotifications`: `pending` is the backend's
pending-notification list (`none` when the fetch failed), `getOk`
whether the `call.get()` existence probe succeeds. Only the head of the
list is considered (`notifications[0]`), and it is surfaced exactly when
its notification id differs from `lastCheckedRef`. Returns the new state
and the invitations surfaced by this poll. -/
def pollForNotifications (s : ListenerState)
    (pending : Option (List CallNotification)) (getOk : Bool) :
    ListenerState × List CallNotification :=
  match pending with
  | none => (s, [])
  | some [] => (s, [])
  | some (latest :: _) =>
    if s.lastChecked = some latest.id then (s, [])
    else
      ({ lastChecked := some latest.id, incoming := some latest,
         currentCallCaptured := getOk, vibrating := true }, [latest])

/-- A sequence of polls, accumulating every surfaced invitation. -/
def pollRun (s : ListenerState) :
    List (Option (List CallNotification) × Bool) →
      ListenerState × List CallNotification
  | [] => (s, [])
  | (p, g) :: rest =>
    let step := pollForNotifications s p g
    let next := pollRun step.1 rest
    (next.1, step.2 ++ next.2)

/-- Once `lastChecked` holds the id of the repeated notification, further
polls returning it change nothing and surface nothing. -/
theorem pollRun_replicate_noop (n : CallNotification) (g : Bool)
    (s : ListenerState) (h : s.lastChecked = some n.id) :
    ∀ m, pollRun s (List.replicate m (some [n], g)) = (s, []) := by
  intro m
  induction m with
  | zero => rfl
  | succ m ih =>
    simp only [List.replicate, pollRun, pollForNotifications, h, if_pos]
    simpa using ih

/-- Counterexample to C3: two Notification Channel records with distinct
notification ids but the same `sourceCallId` "c" are observed in
successive polls; the listener surfaces two invitations for that call
id, not exactly one — deduplication is keyed on the notification id,
not on `sourceCallId`. -/
theorem dedup_by_sourceCallId_refuted :
    (((pollRun initialListenerState
        [(some [⟨"n1", "c", .audio, "alice", 5⟩], true),
         (some [⟨"n2", "c", .audio, "alice", 5⟩], true)]).2.map
      (fun n => n.callId)) = ["c", "c"] ∧
    ((pollRun initialListenerState
        [(some [⟨"n1", "c", .audio, "alice", 5⟩], true),
         (some [⟨"n2", "c", .audio, "alice", 5⟩], true)]).2.length ≠ 1)) := by
  constructor
  · rfl
  · decide

/-- C3 amended: deduplication is per-source and keyed by the
notification record id, compared only against the most recently observed
one: a run of polls that keep returning the same notification surfaces
exactly one invitation, and any poll returning an already-observed
notification id is a no-op. Distinct notification ids — even for the
same `sourceCallId` — each surface anew, and the ringing listener shares
no state with this one. -/
theorem dedup_by_notification_id (n : CallNotification) (g : Bool)
    (m : Nat) (hm : 1 ≤ m) (s : ListenerState)
    (hseen : s.lastChecked = some n.id) :
    (pollRun initialListenerState
        (List.replicate m (some [n], g))).2 = [n] ∧
      pollForNotifications s (some [n]) g = (s, []) := by
  constructor
  · obtain ⟨m', rfl⟩ : ∃ m', m = m' + 1 :=
      ⟨m - 1, by omega⟩
    have hstep : pollForNotifications initialListenerState (some [n]) g =
        ({ lastChecked := some n.id, incoming := some n,
           currentCallCaptured := g, vibrating := true }, [n]) := by
      simp [pollForNotifications, initialListenerState]
    simp only [List.replicate, pollRun, hstep]
    rw [pollRun_replicate_noop n g _ rfl m']
    rfl
  · simp [pollForNotifications, hseen]

/-- Witness for the amended C3: three polls all returning the same
notification surface it exactly once, and a listener that has already
observed that notification id treats a further observation as a
no-op. -/
theorem dedup_by_notification_id_witness :
    (pollRun initialListenerState
        (List.replicate 3 (some [(⟨"n1", "c", .audio, "alice", 5⟩ :
          CallNotification)], true))).2 =
        [⟨"n1", "c", .audio, "alice", 5⟩] ∧
      pollForNotifications
        ⟨some "n1", some ⟨"n1", "c", .audio, "alice", 5⟩, true, true⟩
        (some [⟨"n1", "c", .audio, "alice", 5⟩]) true =
        (⟨some "n1", some ⟨"n1", "c", .audio, "alice", 5⟩, true, true⟩, []) :=
  dedup_by_notification_id ⟨"n1", "c", .audio, "alice", 5⟩ true 3
    (by decide)
    ⟨some "n1", some ⟨"n1", "c", .audio, "alice", 5⟩, true, true⟩ rfl

/-- State of the consultation screen relevant to the call-state
subscription: `mounted` mirrors `mountedRef`, `hasJoined` mirrors
`hasJoinedRef`, `navigatedBack` records that `handleCallEnd()` ran,
`hangupCalled` records whether the user ever invoked `handleHangup`. -/
structure ScreenState where
  mounted : Bool
  hasJoined : Bool
  isCallReady : Bool
  isLoading : Bool
  navigatedBack : Bool
  hangupCalled : Bool
deriving DecidableEq, Repr

/-- The `callingState$` subscription handler installed by
`initializeCall`: ignores events when unmounted; on the first JOINED
marks the call ready; on LEFT runs `handleCallEnd()` (navigation away
from the call screen). -/
def onCallingStateChange (s : ScreenState) (newState : CallingState) :
    ScreenState :=
  if s.mounted = false then s
  else if newState = .joined ∧ s.hasJoined = false then
    { s with hasJoined := true, isCallReady := true, isLoading := false }
  else if newState = .left then { s with navigatedBack := true }
  else s

/-- C4: whenever the media service's call-state stream reports LEFT
while the screen is mounted and the call has been joined (active), the
handler performs the end-of-call navigation — even when `hangup()` was
never called, which the handler leaves untouched. -/
theorem remote_left_is_authoritative (s : ScreenState)
    (hm : s.mounted = true) (hj : s.hasJoined = true)
    (hh : s.hangupCalled = false) :
    (onCallingStateChange s .left).navigatedBack = true ∧
      (onCallingStateChange s .left).hangupCalled = false := by
  simp [onCallingStateChange, hm, hj, hh]

/-- Witness for C4: a mounted, joined screen that never called hangup
navigates away on LEFT. -/
theorem remote_left_is_authoritative_witness :
    (onCallingStateChange ⟨true, true, true, false, false, false⟩
        .left).navigatedBack = true ∧
      (onCallingStateChange ⟨true, true, true, false, false, false⟩
        .left).hangupCalled = false :=
  remote_left_is_authoritative ⟨true, true, true, false, false, false⟩
    rfl rfl rfl

/-- Result of the underlying `call.leave()` request. -/
inductive LeaveResult
  | ok
  | error (msg : String)
deriving DecidableEq, Repr

/-- What `handleHangup` did: whether a `leave()` was issued and whether
`handleCallEnd()` (local exit navigation) ran. -/
structure HangupOutcome where
  leaveAttempted : Bool
  navigatedBack : Bool
deriving DecidableEq, Repr

/-- The try-block of `handleHangup`: leave only when the call has not
already reached LEFT; a rejection of `leave()` surfaces as an error. -/
def tryLeave (callingState : CallingState) (leaveResult : LeaveResult) :
    Except String Unit :=
  if callingState ≠ .left then
    match leaveResult with
    | .ok => Except.ok ()
    | .error m => Except.error m
  else Except.ok ()

/-- `handleHangup` on the consultation screen: with no call object it
navigates immediately; otherwise it attempts the guarded leave, logs any
error, and the `finally` block always runs `handleCallEnd()`. -/
def handleHangup (hasCallObject : Bool) (callingState : CallingState)
    (leaveResult : LeaveResult) : HangupOutcome :=
  if hasCallObject = false then
    { leaveAttempted := false, navigatedBack := true }
  else
    match tryLeave callingState leaveResult with
    | Except.ok _ =>
      { leaveAttempted := decide (callingState ≠ .left), navigatedBack := true }
    | Except.error _ =>
      { leaveAttempted := decide (callingState ≠ .left), navigatedBack := true }

/-- C5: for every call state and every outcome of the underlying
`leave()` request — success or error — `handleHangup` performs the local
exit navigation; a leave failure never blocks the local exit. -/
theorem hangup_always_exits (hasCallObject : Bool)
    (callingState : CallingState) (leaveResult : LeaveResult) :
    (handleHangup hasCallObject callingState leaveResult).navigatedBack =
      true := by
  cases hasCallObject <;> cases leaveResult <;>
    by_cases h : callingState = .left <;>
      simp [handleHangup, tryLeave, h]

/-- What consuming an invitation (accept/reject) actually did:
`mediaLeaveRequested` — a `leave()`/`reject()` was issued on the
media-service call object; `mediaJoined` — the call was joined;
`channelDeleteRequested` — the DELETE of the Notification Channel
record was issued; `localCleared` — the local invitation state was
reset. -/
structure ConsumeOutcome where
  vibrationCancelled : Bool
  mediaLeaveRequested : Bool
  mediaJoined : Bool
  channelDeleteRequested : Bool
  localCleared : Bool
deriving DecidableEq, Repr

/-- `rejectCall` in `CallNotificationListener`: with no pending
invitation it is a no-op; otherwise it cancels vibration, leaves the
media call only when one was captured at observation time
(`currentCall` non-null; errors from `leave()` are swallowed), and runs
`clearNotification` which issues the DELETE when a JWT is present and
always clears the local state. -/
def listenerRejectCall (hasInvitation hasCurrentCall hasJwt : Bool) :
    ConsumeOutcome :=
  if hasInvitation = false then
    { vibrationCancelled := false, mediaLeaveRequested := false,
      mediaJoined := false, channelDeleteRequested := false,
      localCleared := false }
  else
    { vibrationCancelled := true, mediaLeaveRequested := hasCurrentCall,
      mediaJoined := false, channelDeleteRequested := hasJwt,
      localCleared := true }

/-- `acceptCall` in `CallNotificationListener`: with no pending
invitation it is a no-op. Otherwise it cancels vibration; if no call was
captured it re-probes with `call.get()` — a failing probe (or a missing
client) aborts without joining but still runs `clearNotification`.
With a call in hand it joins; success navigates to the consultation
screen, a `join()` throw is caught — and `clearNotification` runs on
every one of these paths. -/
def listenerAcceptCall
    (hasInvitation hasClient hasCurrentCall getOk joinOk hasJwt : Bool) :
    ConsumeOutcome :=
  if hasInvitation = false then
    { vibrationCancelled := false, mediaLeaveRequested := false,
      mediaJoined := false, channelDeleteRequested := false,
      localCleared := false }
  else if hasCurrentCall = false ∧ hasClient = true ∧ getOk = false then
    { vibrationCancelled := true, mediaLeaveRequested := false,
      mediaJoined := false, channelDeleteRequested := hasJwt,
      localCleared := true }
  else if hasCurrentCall = false ∧ hasClient = false then
    { vibrationCancelled := true, mediaLeaveRequested := false,
      mediaJoined := false, channelDeleteRequested := hasJwt,
      localCleared := true }
  else
    { vibrationCancelled := true, mediaLeaveRequested := false,
      mediaJoined := joinOk, channelDeleteRequested := hasJwt,
      localCleared := true }

/-- `rejectCall` in `RingingCalls.tsx`: with a ringing call it cancels
vibration and issues `reject()` on the call; the local ringing state is
cleared only when `reject()` did not throw (the clearing statements sit
inside the try block). It never touches the Notification Channel. -/
def ringingRejectCall (hasRingingCall rejectOk : Bool) : ConsumeOutcome :=
  if hasRingingCall = false then
    { vibrationCancelled := false, mediaLeaveRequested := false,
      mediaJoined := false, channelDeleteRequested := false,
      localCleared := false }
  else
    { vibrationCancelled := true, mediaLeaveRequested := true,
      mediaJoined := false, channelDeleteRequested := false,
      localCleared := rejectOk }

/-- Counterexample to C6: rejecting a pending invitation whose
media-service call was never captured issues no leave/decline on the
call object; and the ringing listener's reject never deletes any
Notification Channel record. In both cases one of the two sources keeps
stale state, contrary to the claim that consumption clears both. -/
theorem consume_clears_both_sources_refuted :
    (listenerRejectCall true false true).mediaLeaveRequested = false ∧
      (ringingRejectCall true true).channelDeleteRequested = false := by
  decide

/-- C6 amended: consuming a pending invitation in the Notification
Channel listener — via accept on any of its branches, or via reject —
always cancels vibration, issues the channel-record DELETE (given a
JWT) and clears local state; reject leaves the media-service call only
when it was captured at observation time, and accept with a captured
call joins exactly when `join()` does not throw. The ringing listener's
reject declines the media call yet never touches the Notification
Channel. -/
theorem invitation_consumption_per_source
    (hasCurrentCall rejectOk hasClient getOk joinOk : Bool) :
    listenerRejectCall true hasCurrentCall true =
      { vibrationCancelled := true, mediaLeaveRequested := hasCurrentCall,
        mediaJoined := false, channelDeleteRequested := true,
        localCleared := true } ∧
      ringingRejectCall true rejectOk =
        { vibrationCancelled := true, mediaLeaveRequested := true,
          mediaJoined := false, channelDeleteRequested := false,
          localCleared := rejectOk } ∧
      (listenerAcceptCall true hasClient hasCurrentCall getOk joinOk
        true).vibrationCancelled = true ∧
      (listenerAcceptCall true hasClient hasCurrentCall getOk joinOk
        true).channelDeleteRequested = true ∧
      (listenerAcceptCall true hasClient hasCurrentCall getOk joinOk
        true).localCleared = true ∧
      listenerAcceptCall true hasClient true getOk joinOk true =
        { vibrationCancelled := true, mediaLeaveRequested := false,
          mediaJoined := joinOk, channelDeleteRequested := true,
          localCleared := true } := by
  cases hasCurrentCall <;> cases rejectOk <;> cases hasClient <;>
    cases getOk <;> cases joinOk <;> decide

/-- C10: accepting a pending invitation when the media-service call was
not captured and the re-probe `get()` fails aborts without joining, yet
the invitation is consumed: the Notification Channel DELETE is issued
and the local invitation state is cleared, so nothing is retained for a
retry. -/
theorem accept_unavailable_call_consumed (joinOk : Bool) :
    listenerAcceptCall true true false false joinOk true =
      { vibrationCancelled := true, mediaLeaveRequested := false,
        mediaJoined := false, channelDeleteRequested := true,
        localCleared := true } := by
  cases joinOk <;> decide

/-- App lifecycle transitions reported by `AppState`. -/
inductive AppStateEvent
  | active
  | background
  | inactive
deriving DecidableEq, Repr

/-- `handleAppStateChange` on the consultation screen: the effect is
installed only for video mode with a call object, ignores events until
the call is ready, then disables the camera on background/inactive and
enables it on active — irrespective of the camera's prior state or of
who last changed it. Returns the camera flag after the event. -/
def handleAppStateChange (mode : CallMode) (hasCallObject isCallReady : Bool)
    (camera : Bool) (next : AppStateEvent) : Bool :=
  if mode ≠ .video ∨ hasCallObject = false then camera
  else if isCallReady = false then camera
  else
    match next with
    | .background => false
    | .inactive => false
    | .active => true

/-- Counterexample to C7: during a ready video call the user has turned
the camera off (`camera = false`); after backgrounding and then
foregrounding, the handler re-enables the camera — it does not track who
disabled it, so the user's choice does not survive the resume. -/
theorem camera_user_intent_refuted :
    handleAppStateChange .video true true
        (handleAppStateChange .video true true false .background)
        .active = true ∧
      ¬ handleAppStateChange .video true true
        (handleAppStateChange .video true true false .background)
        .active = false := by
  decide

/-- C7 amended: for a ready video call, backgrounding (or going
inactive) disables the camera and foregrounding unconditionally
re-enables it, regardless of its prior state or of who disabled it;
non-video calls are unaffected. -/
theorem background_camera_policy (camera : Bool) (e : AppStateEvent) :
    handleAppStateChange .video true true camera .background = false ∧
      handleAppStateChange .video true true camera .inactive = false ∧
      handleAppStateChange .video true true camera .active = true ∧
      handleAppStateChange .audio true true camera e = camera := by
  cases camera <;> cases e <;> decide

/-- The slice of the media session exposed to `CallDurationBadge`:
`started_at` is set by the media transport's session-start signal and
absent before it. -/
structure CallSessionInfo where
  started_at : Option Nat
deriving DecidableEq, Repr

/-- `session?.started_at` — absent when there is no session at all or
the session has no start signal yet. -/
def sessionStartedAt (session : Option CallSessionInfo) : Option Nat :=
  match session with
  | none => none
  | some s => s.started_at

/-- `formatTime` in `CallDurationBadge.tsx` on whole seconds. -/
def formatTime (totalSeconds : Nat) : String :=
  let hours := totalSeconds / 3600
  let minutes := totalSeconds % 3600 / 60
  let seconds := totalSeconds % 60
  let paddedMinutes :=
    if minutes < 10 then "0" ++ toString minutes else toString minutes
  let paddedSeconds :=
    if seconds < 10 then "0" ++ toString seconds else toString seconds
  if hours > 0 then toString hours ++ ":" ++ paddedMinutes ++ ":" ++ paddedSeconds
  else paddedMinutes ++ ":" ++ paddedSeconds

/-- `CallDurationBadge`: renders nothing (`null`) unless the session
reports `started_at`; otherwise it shows the formatted elapsed time,
clamped at zero (timestamps in milliseconds). -/
def callDurationBadge (session : Option CallSessionInfo) (now : Nat) :
    Option String :=
  match sessionStartedAt session with
  | none => none
  | some t => some (formatTime ((now - t) / 1000))

/-- C8: the duration badge is shown exactly when the media transport has
reported a session start — before that (no session, or a session without
a start signal, however the call is Joining or Joined) nothing is
rendered — and when shown it displays the elapsed time since that
start. -/
theorem duration_shown_only_after_session_start
    (session : Option CallSessionInfo) (now : Nat) :
    (callDurationBadge session now).isNone =
        (sessionStartedAt session).isNone ∧
      callDurationBadge session now =
        Option.map (fun t => formatTime ((now - t) / 1000))
          (sessionStartedAt session) := by
  rcases session with _ | ⟨_ | t⟩ <;>
    simp [callDurationBadge, sessionStartedAt]

/-- The guard of the `CallNotificationListener` polling effect:
`if (!isTherapist || !authState.jwt) return;`. -/
def pollingStarts (isTherapist : Bool) (jwt : Option String) : Bool :=
  isTherapist && jwt.isSome

/-- Invitations surfaced by `CallNotificationListener` over a schedule
of polls: none at all when the guard keeps the poll loop from ever
starting. -/
def listenerSurfaced (isTherapist : Bool) (jwt : Option String)
    (polls : List (Option (List CallNotification) × Bool)) :
    List CallNotification :=
  if pollingStarts isTherapist jwt then (pollRun initialListenerState polls).2
  else []

/-- What the effect's cleanup does on teardown. -/
structure ListenerTeardown where
  pollingStopped : Bool
  vibrationCancelled : Bool
deriving DecidableEq, Repr

/-- The effect registers its cleanup — `clearInterval` plus
`Vibration.cancel()` — only when the guard let it start polling;
otherwise the early return registers nothing. -/
def listenerCleanup (isTherapist : Bool) (jwt : Option String) :
    Option ListenerTeardown :=
  if pollingStarts isTherapist jwt then
    some { pollingStopped := true, vibrationCancelled := true }
  else none

/-- C9: for a client user, or with no JWT, the poll loop never starts
and no Notification Channel invitation is ever surfaced; when the loop
did start, its teardown stops polling and cancels vibration. -/
theorem notification_polling_therapist_only
    (isTherapist startedTherapist : Bool) (jwt startedJwt : Option String)
    (polls : List (Option (List CallNotification) × Bool))
    (hclient : isTherapist = false ∨ jwt = none)
    (hstarted : pollingStarts startedTherapist startedJwt = true) :
    pollingStarts isTherapist jwt = false ∧
      listenerSurfaced isTherapist jwt polls = [] ∧
      listenerCleanup startedTherapist startedJwt =
        some { pollingStopped := true, vibrationCancelled := true } := by
  have hguard : pollingStarts isTherapist jwt = false := by
    rcases hclient with h | h <;> simp [pollingStarts, h]
  refine ⟨hguard, ?_, ?_⟩
  · simp [listenerSurfaced, hguard]
  · simp [listenerCleanup, hstarted]

/-- Witness for C9: a client with a valid JWT and one pending
notification never sees it surfaced; a started therapist session tears
down cleanly. -/
theorem notification_polling_therapist_only_witness :
    pollingStarts false (some "jwt") = false ∧
      listenerSurfaced false (some "jwt")
        [(some [⟨"n1", "c", .audio, "alice", 5⟩], true)] = [] ∧
      listenerCleanup true (some "jwt") =
        some { pollingStopped := true, vibrationCancelled := true } :=
  notification_polling_therapist_only false true (some "jwt") (some "jwt")
    [(some [⟨"n1", "c", .audio, "alice", 5⟩], true)]
    (Or.inl rfl) rfl

end MentalHealth
